import Mathlib

/-!
Verification of the authentication and session-lifecycle subsystem of
`audi_connect.py` (standalone Audi Connect API client).

The Python source is shallowly embedded: pure helpers become Lean functions;
network and page-parsing results are supplied by explicit oracle structures
(one field per `await`/`re.search`/`parse_qs` outcome the code consumes);
the token file is threaded as an explicit `Option TokenState` value; machine
integers are `Nat` with explicit `% 2^32` where the hash arithmetic wraps.
-/

/-! ## Byte-level helpers: SHA-256 and base64url, as used by
`generate_code_verifier` / `generate_code_challenge` (hashlib / base64). -/

/-- Truncate to a 32-bit word, the wrap-around of CPython's C sha256 core. -/
def u32 (n : Nat) : Nat := n % 4294967296

/-- Rotate a 32-bit word right by `n` bits. -/
def rotr (n x : Nat) : Nat := u32 ((x >>> n) ||| (x <<< (32 - n)))

/-- The 64 SHA-256 round constants, in decimal. -/
def shaK : List Nat :=
  [1116352408, 1899447441, 3049323471, 3921009573, 961987163, 1508970993,
   2453635748, 2870763221, 3624381080, 310598401, 607225278, 1426881987,
   1925078388, 2162078206, 2614888103, 3248222580, 3835390401, 4022224774,
   264347078, 604807628, 770255983, 1249150122, 1555081692, 1996064986,
   2554220882, 2821834349, 2952996808, 3210313671, 3336571891, 3584528711,
   113926993, 338241895, 666307205, 773529912, 1294757372, 1396182291,
   1695183700, 1986661051, 2177026350, 2456956037, 2730485921, 2820302411,
   3259730800, 3345764771, 3516065817, 3600352804, 4094571909, 275423344,
   430227734, 506948616, 659060556, 883997877, 958139571, 1322822218,
   1537002063, 1747873779, 1955562222, 2024104815, 2227730452, 2361852424,
   2428436474, 2756734187, 3204031479, 3329325298]

/-- Big-endian byte rendering of a value on `n` bytes. -/
def beBytes : Nat → Nat → List Nat
  | 0, _ => []
  | n + 1, v => beBytes n (v >>> 8) ++ [v % 256]

/-- Group a byte list into big-endian 32-bit words (dropping a ragged tail;
inputs are always a multiple of 4 bytes). -/
def beWords : List Nat → List Nat
  | a :: b :: c :: d :: rest => (((a * 256 + b) * 256 + c) * 256 + d) :: beWords rest
  | _ => []

/-- SHA-256 message padding: `0x80`, zeros to 56 mod 64, 8-byte bit length. -/
def sha256pad (msg : List Nat) : List Nat :=
  let len := msg.length
  let zeros := (119 - len % 64) % 64
  msg ++ [0x80] ++ List.replicate zeros 0 ++ beBytes 8 (len * 8)

def smallSigma0 (x : Nat) : Nat := u32 (rotr 7 x ^^^ rotr 18 x ^^^ (x >>> 3))
def smallSigma1 (x : Nat) : Nat := u32 (rotr 17 x ^^^ rotr 19 x ^^^ (x >>> 10))
def bigSigma0 (x : Nat) : Nat := u32 (rotr 2 x ^^^ rotr 13 x ^^^ rotr 22 x)
def bigSigma1 (x : Nat) : Nat := u32 (rotr 6 x ^^^ rotr 11 x ^^^ rotr 25 x)
def chWord (x y z : Nat) : Nat := u32 ((x &&& y) ^^^ ((x ^^^ 4294967295) &&& z))
def majWord (x y z : Nat) : Nat := u32 ((x &&& y) ^^^ (x &&& z) ^^^ (y &&& z))

/-- The eight working hash words. -/
structure Hash8 where
  a : Nat
  b : Nat
  c : Nat
  d : Nat
  e : Nat
  f : Nat
  g : Nat
  h : Nat
deriving Repr, DecidableEq

/-- The eight SHA-256 initial hash values, in decimal. -/
def shaInit : Hash8 :=
  ⟨1779033703, 3144134277, 1013904242, 2773480762,
   1359893119, 2600822924, 528734635, 1541459225⟩

/-- Extend the 16 block words to the 64-entry message schedule. -/
def shaSchedule (w16 : Array Nat) : Array Nat :=
  (List.range 48).foldl
    (fun w j =>
      w.push (u32 (smallSigma1 (w.getD (j + 14) 0) + w.getD (j + 9) 0 +
        smallSigma0 (w.getD (j + 1) 0) + w.getD j 0)))
    w16

/-- One SHA-256 compression round. -/
def shaRound (w : Array Nat) (s : Hash8) (i : Nat) : Hash8 :=
  let t1 := u32 (s.h + bigSigma1 s.e + chWord s.e s.f s.g + shaK.getD i 0 + w.getD i 0)
  let t2 := u32 (bigSigma0 s.a + majWord s.a s.b s.c)
  ⟨u32 (t1 + t2), s.a, s.b, s.c, u32 (s.d + t1), s.e, s.f, s.g⟩

/-- Compress one 64-byte block into the running hash. -/
def sha256block (h0 : Hash8) (block : List Nat) : Hash8 :=
  let w := shaSchedule (beWords block).toArray
  let s := (List.range 64).foldl (shaRound w) h0
  ⟨u32 (h0.a + s.a), u32 (h0.b + s.b), u32 (h0.c + s.c), u32 (h0.d + s.d),
   u32 (h0.e + s.e), u32 (h0.f + s.f), u32 (h0.g + s.g), u32 (h0.h + s.h)⟩

/-- SHA-256 digest (32 bytes) of a byte string, as `hashlib.sha256(...).digest()`. -/
def sha256 (msg : List Nat) : List Nat :=
  let p := sha256pad msg
  let s := (List.range (p.length / 64)).foldl
    (fun h i => sha256block h ((p.drop (64 * i)).take 64)) shaInit
  beBytes 4 s.a ++ beBytes 4 s.b ++ beBytes 4 s.c ++ beBytes 4 s.d ++
    beBytes 4 s.e ++ beBytes 4 s.f ++ beBytes 4 s.g ++ beBytes 4 s.h

/-- The URL-safe base64 alphabet (RFC 4648 with `-` and `_`). -/
def b64urlAlphabet : List Char :=
  ['A', 'B', 'C', 'D', 'E', 'F', 'G', 'H', 'I', 'J', 'K', 'L', 'M',
   'N', 'O', 'P', 'Q', 'R', 'S', 'T', 'U', 'V', 'W', 'X', 'Y', 'Z',
   'a', 'b', 'c', 'd', 'e', 'f', 'g', 'h', 'i', 'j', 'k', 'l', 'm',
   'n', 'o', 'p', 'q', 'r', 's', 't', 'u', 'v', 'w', 'x', 'y', 'z',
   '0', '1', '2', '3', '4', '5', '6', '7', '8', '9', '-', '_']

def b64char (n : Nat) : Char := b64urlAlphabet.getD (n % 64) 'A'

/-- `base64.urlsafe_b64encode`: standard base64 over the URL-safe alphabet,
padded with `=` to a multiple of four characters. -/
def urlsafe_b64encode : List Nat → List Char
  | [] => []
  | [a] => [b64char (a / 4), b64char (a % 4 * 16), '=', '=']
  | [a, b] => [b64char (a / 4), b64char (a % 4 * 16 + b / 16), b64char (b % 16 * 4), '=']
  | a :: b :: c :: rest =>
      b64char (a / 4) :: b64char (a % 4 * 16 + b / 16) :: b64char (b % 16 * 4 + c / 64) ::
        b64char (c % 64) :: urlsafe_b64encode rest

/-- The spec's `base64url_nopad`: URL-safe base64 with no padding characters. -/
def base64url_nopad : List Nat → List Char
  | [] => []
  | [a] => [b64char (a / 4), b64char (a % 4 * 16)]
  | [a, b] => [b64char (a / 4), b64char (a % 4 * 16 + b / 16), b64char (b % 16 * 4)]
  | a :: b :: c :: rest =>
      b64char (a / 4) :: b64char (a % 4 * 16 + b / 16) :: b64char (b % 16 * 4 + c / 64) ::
        b64char (c % 64) :: base64url_nopad rest

/-- `bytes.rstrip(b"=")`: drop every trailing `=`. -/
def rstripEq (l : List Char) : List Char :=
  (l.reverse.dropWhile (fun c => c == '=')).reverse

/-- `str.encode("ascii")`: code points of the string as bytes (the strings fed
in are ASCII, where this is exact). -/
def asciiEncode (s : String) : List Nat := s.data.map Char.toNat

/-- The byte count passed to `secrets.token_bytes` in `generate_code_verifier`. -/
def verifierRandomByteCount : Nat := 32

/-- `generate_code_verifier`, with the draw from the secure random source
(`secrets.token_bytes(32)`) passed in explicitly as `tokenBytes`. -/
def generate_code_verifier (tokenBytes : List Nat) : List Char :=
  rstripEq (urlsafe_b64encode tokenBytes)

/-- `generate_code_challenge`. -/
def generate_code_challenge (verifier : String) : List Char :=
  rstripEq (urlsafe_b64encode (sha256 (asciiEncode verifier)))

/-! ## Strings, truthiness -/

/-- Python's `pat in s` on strings: substring containment. -/
def strContains (s pat : String) : Bool := decide (pat.data <:+: s.data)

/-- `str.startswith`. -/
def strStartsWith (s pre : String) : Bool := pre.data.isPrefixOf s.data

/-- Python truthiness of a string (`""` is falsy). -/
def strNonempty (s : String) : Bool := !s.data.isEmpty

/-- String concatenation (via the character lists, so that closed instances
reduce in the kernel). -/
def strAppend (s t : String) : String := String.mk (s.data ++ t.data)

/-- Python truthiness of an optional string (`None` and `""` are falsy). -/
def truthy : Option String → Bool
  | none => false
  | some s => strNonempty s

/-! ## Data model: the token fields of `AudiConnect` and the persisted record.

`self.access_token`, `self.refresh_token`, `self.id_token`, `self.token_expiry`,
`self.mbb_token`, `self.mbb_token_expiry`; the JSON file written by
`_save_tokens` holds exactly these six fields, so the persisted record is the
same structure. `datetime` values are modelled as `Nat` timestamps. -/

structure TokenState where
  access_token : Option String
  refresh_token : Option String
  id_token : Option String
  token_expiry : Option Nat
  mbb_token : Option String
  mbb_token_expiry : Option Nat
deriving Repr, DecidableEq

/-- The constructor state of `AudiConnect`: every token field `None`. -/
def initialTokenState : TokenState := ⟨none, none, none, none, none, none⟩

/-- `_load_tokens`: reads the cached file. `file = none` models a missing or
unparsable file (the `except` branch logs and returns `False`); otherwise the
six fields are set from the file and `True` is returned. -/
def load_tokens (file : Option TokenState) : Bool × TokenState :=
  match file with
  | some d => (true, d)
  | none => (false, initialTokenState)

/-! ## Errors

The source raises bare `Exception`s; each distinct `raise` site becomes one
constructor, carrying the data interpolated into its message. -/

inductive AuthError where
  | openidConfigFailed (status : Nat)
  | noLoginForm
  | emailFailed (status : Nat)
  | noRelayState
  | noIdk
  | noCsrfToken
  | noHmac
  | passwordFailed (status : Nat)
  | noAuthCode (finalLocation : String)
  | noAuthCodeParam
  | tokenExchangeFailed (status : Nat)
  | mbbExchangeFailed (status : Nat)
  | refreshFailed (status : Nat)
  | chainNonTermination
deriving Repr, DecidableEq

/-! ## JSON payloads the code reads from token endpoints -/

/-- Fields `_refresh_tokens` / the code-exchange step read from the OAuth token
endpoint's JSON (`tokens.get(...)`). -/
structure TokenJson where
  access_token : Option String
  refresh_token : Option String
  id_token : Option String
  expires_in : Option Nat
deriving Repr, DecidableEq

/-- Fields `_get_mbb_token` reads from the MBB token endpoint's JSON. -/
structure MbbJson where
  access_token : Option String
  expires_in : Option Nat
deriving Repr, DecidableEq

/-- `_get_mbb_token`: POST to the MBB endpoint; non-200 raises, 200 sets
`mbb_token` and `mbb_token_expiry = now + expires_in (default 3600)`. -/
def get_mbb_token (status : Nat) (j : MbbJson) (now : Nat) (st : TokenState) :
    Except AuthError TokenState :=
  if status ≠ 200 then .error (.mbbExchangeFailed status)
  else .ok { st with
    mbb_token := j.access_token,
    mbb_token_expiry := some (now + j.expires_in.getD 3600) }

/-! ## `_refresh_tokens` -/

/-- Oracle for one `_refresh_tokens` call: the status of the OpenID-config
fetch (only consulted when the config is not yet loaded), the token endpoint's
response to the `refresh_token` grant, and the MBB exchange's response. -/
structure RefreshOracle where
  openidStatus : Nat
  status : Nat
  json : TokenJson
  mbbStatus : Nat
  mbbJson : MbbJson

structure RefreshResult where
  result : Except AuthError Unit
  state : TokenState
  file : Option TokenState
  netCalls : Nat
  refreshPosts : Nat

/-- Network calls the OpenID-config fetch contributes inside
`_refresh_tokens` (none when the config is already loaded). -/
def openidConfigCalls (openidLoaded : Bool) : Nat := if openidLoaded then 0 else 1

/-- `_refresh_tokens`, lines 463–490: fetch the OpenID config if absent, POST
the `refresh_token` grant, update the in-memory tokens (keeping the old
refresh token when the response omits one), re-derive the MBB token, and only
then `_save_tokens`. `state` is the in-memory token state after the call
(mutations before a raise persist in memory), `file` the persisted record,
`refreshPosts` the number of POSTs of the refresh grant to the token
endpoint. -/
def refresh_tokens (o : RefreshOracle) (now : Nat) (openidLoaded : Bool)
    (st : TokenState) (file : Option TokenState) : RefreshResult :=
  if ¬openidLoaded ∧ o.openidStatus ≠ 200 then
    ⟨.error (.openidConfigFailed o.openidStatus), st, file, 1, 0⟩
  else if o.status ≠ 200 then
    ⟨.error (.refreshFailed o.status), st, file, openidConfigCalls openidLoaded + 1, 1⟩
  else
    match get_mbb_token o.mbbStatus o.mbbJson now { st with
        access_token := o.json.access_token,
        refresh_token := match o.json.refresh_token with
          | some v => some v
          | none => st.refresh_token,
        id_token := o.json.id_token,
        token_expiry := some (now + o.json.expires_in.getD 3600) } with
    | .error e => ⟨.error e, { st with
        access_token := o.json.access_token,
        refresh_token := match o.json.refresh_token with
          | some v => some v
          | none => st.refresh_token,
        id_token := o.json.id_token,
        token_expiry := some (now + o.json.expires_in.getD 3600) }, file,
        openidConfigCalls openidLoaded + 2, 1⟩
    | .ok st2 => ⟨.ok (), st2, some st2, openidConfigCalls openidLoaded + 2, 1⟩

/-! ## The redirect-following loop of `login` (lines 313–383) -/

/-- One response of the redirect chain, plus what the code extracts from it:
the `Location` header (`headers.get("Location", "")`), the consent page's
scraped CSRF token (`re.search` result), the `callback` / `hmac` /
`relayState` query parameters of the current location (`parse_qs` results),
and the consent POST's status and `Location` header, and the body's
`window.location` JS redirect (`re.search` result). -/
structure ChainResp where
  status : Nat
  location : String
  consentCsrf : Option String
  consentCallback : String
  consentHmac : String
  consentRelay : String
  consentStatus : Nat
  consentLocation : String
  jsRedirect : Option String
deriving Repr, DecidableEq

/-- The form data POSTed to the consent/marketing page. -/
structure ConsentPost where
  csrf : String
  relayState : String
  hmac : String
  marketingPermission : String
deriving Repr, DecidableEq

/-- Outcome of the redirect loop: the final value of `location` (with the
consent POSTs made along the way and the number of loop GETs), or fuel ran
out while the loop guard still held. The source loop has NO hop bound, so
`outOfFuel` for every fuel means the code loops forever on that response
sequence. -/
inductive ChainResult where
  | finalLoc (location : String) (posts : List ConsentPost) (gets : Nat)
  | outOfFuel (posts : List ConsentPost)
deriving Repr, DecidableEq

/-- The loop guard: `location and "code=" not in location and not
location.startswith("myaudi:")`. -/
def chainGuard (location : String) : Bool :=
  strNonempty location && !strContains location "code=" && !strStartsWith location "myaudi:"

/-- Make a relative location absolute, as the loop body does. -/
def absolutize (location : String) : String :=
  if strStartsWith location "/" then strAppend "https://identity.vwgroup.io" location
  else location

/-- The `while` loop at lines 314–383. `o i` is the response to the `i`-th
loop GET. Faithful details: the loop variable `location` is absolutized in
place before the GET; the consent branch overwrites `new_loc` with the
consent POST's `Location` header, falling back to the `callback` query
parameter; when `new_loc` is empty the loop extracts a JS redirect target but
then `break`s unconditionally, so the extracted target is never followed and
the final `location` is the pre-break value. -/
def follow_redirect_chain (o : Nat → ChainResp) (fuel : Nat) (i : Nat)
    (location : String) (posts : List ConsentPost) (gets : Nat) : ChainResult :=
  match fuel with
  | 0 => if chainGuard location then .outOfFuel posts else .finalLoc location posts gets
  | fuel + 1 =>
    if chainGuard location then
      let loc := absolutize location
      let r := o i
      let newLoc := r.location
      if r.status == 200 && strContains loc "consent/marketing" then
        let consentCsrf := (r.consentCsrf).getD ""
        let post : ConsentPost := ⟨consentCsrf, r.consentRelay, r.consentHmac, "NO"⟩
        let newLoc2 :=
          if strNonempty r.consentLocation then r.consentLocation
          else if strNonempty r.consentCallback then r.consentCallback
          else ""
        if strNonempty newLoc2 then
          follow_redirect_chain o fuel (i + 1) newLoc2 (posts ++ [post]) (gets + 1)
        else .finalLoc loc (posts ++ [post]) (gets + 1)
      else
        if strNonempty newLoc then
          follow_redirect_chain o fuel (i + 1) newLoc posts (gets + 1)
        else .finalLoc loc posts (gets + 1)
    else .finalLoc location posts gets

/-! ## The full PKCE login flow (`login`, lines 150–433, after the cache and
refresh branches did not succeed) -/

/-- Oracle for one full login attempt: one field per network response /
parse result the flow consumes, in source order. -/
structure FullLoginOracle where
  openidStatus : Nat
  authPageStatus : Nat
  formAction : Option String
  emailStatus : Nat
  relayState : Option String
  idkFound : Bool
  csrfToken : Option String
  hmacVal : Option String
  pwStatus : Nat
  pwLocation : String
  pwBodyHasError : Bool
  chain : Nat → ChainResp
  codeQuery : Option String
  codeFragment : Option String
  tokenStatus : Nat
  tokenJson : TokenJson
  mbbStatus : Nat
  mbbJson : MbbJson

structure FlowResult where
  result : Except AuthError Bool
  state : TokenState
  file : Option TokenState
  netCalls : Nat

/-- Network calls the auth-page fetch contributes (a 302 is followed with a
second GET). -/
def authPageCalls (o : FullLoginOracle) : Nat := if o.authPageStatus == 302 then 2 else 1

/-- The token state after the code-for-tokens exchange of the full flow
(step 4 updates the four OAuth fields; `refresh_token` is a plain `get` with
no fallback here, unlike in `_refresh_tokens`). -/
def afterCodeExchange (o : FullLoginOracle) (now : Nat) (st : TokenState) : TokenState :=
  { st with
    access_token := o.tokenJson.access_token,
    refresh_token := o.tokenJson.refresh_token,
    id_token := o.tokenJson.id_token,
    token_expiry := some (now + o.tokenJson.expires_in.getD 3600) }

/-- The full OAuth2 PKCE flow of `login` (everything from
`_get_openid_config()` at line 151 to the final `_save_tokens()` at line
431), with `fuel` bounding the unbounded redirect loop (`chainNonTermination`
stands for the source never leaving that loop). `_save_tokens` runs only as
the final step; every `raise` leaves `file` as it was. -/
def full_login_flow (o : FullLoginOracle) (now : Nat) (fuel : Nat)
    (st : TokenState) (file : Option TokenState) : FlowResult :=
  if o.openidStatus ≠ 200 then ⟨.error (.openidConfigFailed o.openidStatus), st, file, 1⟩
  -- Step 1: fetch the auth page and parse the form
  else match o.formAction with
  | none => ⟨.error .noLoginForm, st, file, 1 + authPageCalls o⟩
  | some _ =>
  -- Step 2: submit email; anything but a 302/303 redirect raises
  if ¬(o.emailStatus = 302 ∨ o.emailStatus = 303) then
    ⟨.error (.emailFailed o.emailStatus), st, file, 2 + authPageCalls o⟩
  else match o.relayState with
  | none => ⟨.error .noRelayState, st, file, 2 + authPageCalls o⟩
  | some _ =>
  -- Step 3: GET the authenticate page; extract window._IDK, csrf_token, hmac
  if !o.idkFound then ⟨.error .noIdk, st, file, 3 + authPageCalls o⟩
  else match o.csrfToken with
  | none => ⟨.error .noCsrfToken, st, file, 3 + authPageCalls o⟩
  | some _ =>
  match o.hmacVal with
  | none => ⟨.error .noHmac, st, file, 3 + authPageCalls o⟩
  | some _ =>
  -- POST the password; with no Location header the body is checked for errors
  if o.pwLocation = "" ∧ (o.pwBodyHasError ∨ o.pwStatus ≥ 400) then
    ⟨.error (.passwordFailed o.pwStatus), st, file, 4 + authPageCalls o⟩
  else
  -- Follow the redirect chain
  match follow_redirect_chain o.chain fuel 0 (absolutize o.pwLocation) [] 0 with
  | .outOfFuel _ => ⟨.error .chainNonTermination, st, file, 4 + authPageCalls o + fuel⟩
  | .finalLoc finalLoc posts gets =>
  if !strContains finalLoc "code=" then
    ⟨.error (.noAuthCode finalLoc), st, file, 4 + authPageCalls o + gets + posts.length⟩
  else
  -- extract the code from the query string, falling back to the fragment
  match (match o.codeQuery with
    | some c => some c
    | none => o.codeFragment) with
  | none => ⟨.error .noAuthCodeParam, st, file, 4 + authPageCalls o + gets + posts.length⟩
  | some _ =>
  -- Step 4: exchange the code for OAuth tokens
  if o.tokenStatus ≠ 200 then
    ⟨.error (.tokenExchangeFailed o.tokenStatus), st, file,
      5 + authPageCalls o + gets + posts.length⟩
  else
  -- Step 5: exchange for the MBB token, then save
  match get_mbb_token o.mbbStatus o.mbbJson now (afterCodeExchange o now st) with
  | .error e => ⟨.error e, afterCodeExchange o now st, file,
      6 + authPageCalls o + gets + posts.length⟩
  | .ok st2 => ⟨.ok true, st2, some st2, 6 + authPageCalls o + gets + posts.length⟩

/-! ## `login` (lines 129–151): cache / refresh / full decision -/

/-- The cache test at lines 135–139: `self.mbb_token and self.mbb_token_expiry
and datetime.now() < self.mbb_token_expiry` (a `datetime` is always truthy,
so the middle conjunct is presence). -/
def cacheHit (st : TokenState) (now : Nat) : Bool :=
  truthy st.mbb_token && (match st.mbb_token_expiry with
    | some e => decide (now < e)
    | none => false)

structure LoginOracle where
  file : Option TokenState
  refresh : RefreshOracle
  full : FullLoginOracle

/-- Which branch of `login` produced the returned result. -/
inductive LoginMode where
  | cached
  | refreshed
  | fullFlow
deriving Repr, DecidableEq

structure LoginResult where
  result : Except AuthError Bool
  state : TokenState
  file : Option TokenState
  netCalls : Nat
  refreshPosts : Nat
  fullFlowRuns : Nat
  mode : LoginMode

/-- `login`: load the cached record; if the MBB token is present and
unexpired return `True` with no network traffic; otherwise if a refresh token
is present try `_refresh_tokens` and return `True` on success; on refresh
failure (or no usable cache) fall through to the full PKCE flow. The full
flow starts from the state the failed refresh left in memory, exactly as the
source's exception handler falls through. -/
def login (o : LoginOracle) (now fuel : Nat) : LoginResult :=
  match load_tokens o.file with
  | (loaded, st) =>
    if loaded && cacheHit st now then
      ⟨.ok true, st, o.file, 0, 0, 0, .cached⟩
    else if loaded && truthy st.refresh_token then
      let r := refresh_tokens o.refresh now false st o.file
      match r.result with
      | .ok _ => ⟨.ok true, r.state, r.file, r.netCalls, r.refreshPosts, 0, .refreshed⟩
      | .error _ =>
        let f := full_login_flow o.full now fuel r.state r.file
        ⟨f.result, f.state, f.file, r.netCalls + f.netCalls, r.refreshPosts, 1, .fullFlow⟩
    else
      let f := full_login_flow o.full now fuel st o.file
      ⟨f.result, f.state, f.file, f.netCalls, 0, 1, .fullFlow⟩

/-! ## `authenticated_get` (lines 492–506) -/

/-- One HTTP request as issued by `authenticated_get`: its URL and the token
interpolated into the `Authorization: Bearer {...}` header. -/
structure Request where
  url : String
  bearer : Option String
deriving Repr, DecidableEq

/-- Oracle for one `authenticated_get` call: `resp i` is the response to the
GET of attempt `i`, and `refresh` drives the `_refresh_tokens` call made on a
first-attempt 401. -/
structure AuthGetOracle where
  resp : Nat → Nat × String
  refresh : RefreshOracle

structure AuthGetResult where
  result : Except AuthError (Nat × String)
  state : TokenState
  file : Option TokenState
  requests : List Request
  refreshPosts : Nat

/-- `authenticated_get`: the two-iteration `for attempt in range(2)` loop,
unrolled. Attempt 0 sends `Bearer {self.access_token}`; on a 401 it runs
`_refresh_tokens` (whose exception propagates to the caller) and retries once
with the refreshed `access_token`; the retried response is returned whatever
its status. A non-401 first response is returned directly. -/
def authenticated_get (o : AuthGetOracle) (url : String) (now : Nat)
    (openidLoaded : Bool) (st : TokenState) (file : Option TokenState) : AuthGetResult :=
  let req0 : Request := ⟨url, st.access_token⟩
  let s0 := o.resp 0
  if s0.1 == 401 then
    let r := refresh_tokens o.refresh now openidLoaded st file
    match r.result with
    | .error e => ⟨.error e, r.state, r.file, [req0], r.refreshPosts⟩
    | .ok _ =>
      let req1 : Request := ⟨url, r.state.access_token⟩
      ⟨.ok (o.resp 1), r.state, r.file, [req0, req1], r.refreshPosts⟩
  else ⟨.ok s0, st, file, [req0], 0⟩

/-! ## `_save_tokens` (lines 105–119) as file operations -/

/-- The fixed token-file path (`Path.home() / ".audi_tokens.json"`). -/
def tokenFilePath : String := "~/.audi_tokens.json"

/-- `datetime.isoformat()` on the `Nat` timestamp model. -/
def isoformat (t : Nat) : String := toString t

/-- A JSON string or `null`, as `json.dumps` renders an optional field. -/
def jsonField : Option String → String
  | none => "null"
  | some s => "\"" ++ s ++ "\""

/-- `json.dumps(data, indent=2)` over the six-field record (token values are
base64/URL material, so no string escaping arises). -/
def dumpRecord (st : TokenState) : String :=
  "\x7b\n  \"access_token\": " ++ jsonField st.access_token ++
  ",\n  \"refresh_token\": " ++ jsonField st.refresh_token ++
  ",\n  \"id_token\": " ++ jsonField st.id_token ++
  ",\n  \"token_expiry\": " ++ jsonField (st.token_expiry.map isoformat) ++
  ",\n  \"mbb_token\": " ++ jsonField st.mbb_token ++
  ",\n  \"mbb_token_expiry\": " ++ jsonField (st.mbb_token_expiry.map isoformat) ++
  "\n\x7d"

/-- File-system operations a save routine could perform on the store. -/
inductive FileOp where
  | write (path : String) (content : String)
  | writeTemp (path : String) (content : String)
  | rename (src : String) (dst : String)
deriving Repr, DecidableEq

/-- `_save_tokens` as the file operations it performs:
`TOKEN_FILE.write_text(json.dumps(data, indent=2))` is one open-for-write
(truncating) in-place write of the serialized record. -/
def save_tokens_ops (st : TokenState) : List FileOp :=
  [.write tokenFilePath (dumpRecord st)]

/-- The write-then-replace discipline the spec requires of `save`: write the
new content to a temporary path, then atomically rename it over the store. -/
def isWriteThenReplace (ops : List FileOp) (path : String) : Bool :=
  match ops with
  | [.writeTemp tmp _, .rename src dst] =>
      decide (src = tmp) && decide (dst = path) && !decide (tmp = path)
  | _ => false

/-- What a reader finds at the store path if the process crashes after `k`
bytes of an in-place truncating `FileOp.write` to it have reached the disk
(`Path.write_text` truncates first, so the old content is already gone):
the first `k` bytes of the new content. For a `writeTemp` or an atomic
`rename` the store path still holds, respectively, the old or a complete
content. -/
def crashMidWriteContent (op : FileOp) (old : String) (k : Nat) : String :=
  match op with
  | .write _ content => String.mk (content.toList.take k)
  | .writeTemp _ _ => old
  | .rename _ _ => old

/-! ## Concurrency model for `authenticated_get` (no lock in the source)

`AudiConnect` holds no mutex and no single-flight primitive: `_refresh_tokens`
is awaited directly from `authenticated_get`. Two tasks running
`authenticated_get` concurrently on one session are modelled at `await`
granularity: each atomic step is the code between two `await`s. The mock
endpoint 401s any request bearing the stale token; a refresh installs the
fresh token in the shared session and increments the count of refresh POSTs
reaching the token endpoint. -/

inductive TaskPC where
  | start
  | doRefresh
  | retry
  | done
deriving Repr, DecidableEq

structure ConcState where
  token : String
  pc0 : TaskPC
  pc1 : TaskPC
  refreshPosts : Nat
deriving Repr, DecidableEq

def staleToken : String := "stale"
def freshTokenValue : String := "fresh"

/-- The mock endpoint of the spec's test: 401 for the stale token, 200 for
the fresh one. -/
def mockStatus (tok : String) : Nat := if tok = freshTokenValue then 200 else 401

/-- One atomic section of a task running `authenticated_get`:
`start` = the attempt-0 GET returns and its status is inspected (401 sends
the task to `_refresh_tokens`, anything else finishes);
`doRefresh` = `_refresh_tokens` completes, writing the fresh token into the
shared session and POSTing the refresh grant (nothing guards this section);
`retry` = the attempt-1 GET returns and the task finishes. -/
def stepTask (token : String) (refreshPosts : Nat) (pc : TaskPC) :
    String × Nat × TaskPC :=
  match pc with
  | .start =>
      if mockStatus token == 401 then (token, refreshPosts, .doRefresh)
      else (token, refreshPosts, .done)
  | .doRefresh => (freshTokenValue, refreshPosts + 1, .retry)
  | .retry => (token, refreshPosts, .done)
  | .done => (token, refreshPosts, .done)

/-- Run one scheduled step: `false` steps task 0, `true` steps task 1. -/
def concStep (s : ConcState) (t : Bool) : ConcState :=
  if t then
    match stepTask s.token s.refreshPosts s.pc1 with
    | (tok, rp, pc) => ⟨tok, s.pc0, pc, rp⟩
  else
    match stepTask s.token s.refreshPosts s.pc0 with
    | (tok, rp, pc) => ⟨tok, pc, s.pc1, rp⟩

/-- Run a schedule of interleaved steps. -/
def concRun (sched : List Bool) (s : ConcState) : ConcState :=
  sched.foldl concStep s

/-- Both tasks about to issue their first GET with the shared stale token. -/
def concInit : ConcState := ⟨staleToken, .start, .start, 0⟩

/-! ## Lemmas: stripping base64 padding gives the unpadded encoding -/

theorem b64char_ne_pad (n : Nat) : (b64char n == '=') = false := by
  have hb : ∀ m, m < 64 → (b64urlAlphabet.getD m 'A' == '=') = false := by decide
  exact hb (n % 64) (Nat.mod_lt _ (by norm_num))

theorem mem_base64url_nopad_ne_pad (bs : List Nat) :
    ∀ c ∈ base64url_nopad bs, (c == '=') = false := by
  match bs with
  | [] => intro c hc; simp [base64url_nopad] at hc
  | [a] =>
    intro c hc
    simp [base64url_nopad] at hc
    rcases hc with h | h <;> subst h <;> exact b64char_ne_pad _
  | [a, b] =>
    intro c hc
    simp [base64url_nopad] at hc
    rcases hc with h | h | h <;> subst h <;> exact b64char_ne_pad _
  | a :: b :: c0 :: rest =>
    intro c hc
    simp only [base64url_nopad, List.mem_cons] at hc
    rcases hc with h | h | h | h | h
    · subst h; exact b64char_ne_pad _
    · subst h; exact b64char_ne_pad _
    · subst h; exact b64char_ne_pad _
    · subst h; exact b64char_ne_pad _
    · exact mem_base64url_nopad_ne_pad rest c h

theorem dropWhile_eq_self_of_none (p : Char → Bool) (l : List Char)
    (h : ∀ c ∈ l, p c = false) : l.dropWhile p = l := by
  cases l with
  | nil => rfl
  | cons a t => simp [List.dropWhile_cons, h a (by simp)]

theorem rstripEq_append (x y : List Char) (hx : ∀ c ∈ x, (c == '=') = false) :
    rstripEq (x ++ y) = x ++ rstripEq y := by
  unfold rstripEq
  rw [List.reverse_append, List.dropWhile_append]
  by_cases he : (y.reverse.dropWhile (fun c => c == '=')).isEmpty = true
  · rw [if_pos he]
    rw [List.isEmpty_iff] at he
    rw [he, dropWhile_eq_self_of_none _ _ (by intro c hc; exact hx c (by simpa using hc))]
    simp
  · rw [if_neg he]
    simp

theorem rstrip_pad_eq_nopad (bs : List Nat) :
    rstripEq (urlsafe_b64encode bs) = base64url_nopad bs := by
  match bs with
  | [] => rfl
  | [a] =>
    show rstripEq ([b64char (a / 4), b64char (a % 4 * 16)] ++ ['=', '=']) = _
    rw [rstripEq_append _ _ (by
      intro c hc; simp at hc
      rcases hc with h | h <;> subst h <;> exact b64char_ne_pad _)]
    rfl
  | [a, b] =>
    show rstripEq ([b64char (a / 4), b64char (a % 4 * 16 + b / 16),
        b64char (b % 16 * 4)] ++ ['=']) = _
    rw [rstripEq_append _ _ (by
      intro c hc; simp at hc
      rcases hc with h | h | h <;> subst h <;> exact b64char_ne_pad _)]
    rfl
  | a :: b :: c0 :: rest =>
    show rstripEq ([b64char (a / 4), b64char (a % 4 * 16 + b / 16),
        b64char (b % 16 * 4 + c0 / 64), b64char (c0 % 64)] ++ urlsafe_b64encode rest) = _
    rw [rstripEq_append _ _ (by
      intro c hc; simp at hc
      rcases hc with h | h | h | h <;> subst h <;> exact b64char_ne_pad _)]
    rw [rstrip_pad_eq_nopad rest]
    rfl

/-! ## Claim C9: PKCE verifier/challenge -/

/-- C9: for every verifier the challenge is the base64url-encoded unpadded
SHA-256 digest of the verifier; the challenge function is deterministic
(equal verifiers give equal challenges); the verifier is the URL-safe
base64 encoding, padding stripped, of the 32 cryptographically secure random
bytes drawn by `secrets.token_bytes(32)` (the draw is the `tokenBytes`
argument of the embedding). -/
theorem pkce_verifier_challenge_spec (v w : String) (tokenBytes : List Nat)
    (hvw : v = w) :
    generate_code_challenge v = base64url_nopad (sha256 (asciiEncode v))
    ∧ generate_code_challenge v = generate_code_challenge w
    ∧ generate_code_verifier tokenBytes = base64url_nopad tokenBytes
    ∧ 32 ≤ verifierRandomByteCount :=
  ⟨rstrip_pad_eq_nopad _, by rw [hvw], rstrip_pad_eq_nopad tokenBytes,
    by norm_num [verifierRandomByteCount]⟩

theorem pkce_verifier_challenge_spec_witness :
    generate_code_challenge "abc" = base64url_nopad (sha256 (asciiEncode "abc"))
    ∧ generate_code_challenge "abc" = generate_code_challenge "abc"
    ∧ generate_code_verifier (List.range 32) = base64url_nopad (List.range 32)
    ∧ 32 ≤ verifierRandomByteCount :=
  pkce_verifier_challenge_spec "abc" "abc" (List.range 32) rfl

/-! ## Claim C5: the redirect loop has no hop bound -/

/-- A server that redirects forever: every response is a 302 whose `Location`
never contains an authorization code and never reaches the app scheme. -/
def endlessRedirectResp : ChainResp :=
  ⟨302, "https://identity.vwgroup.io/next", none, "", "", "", 302, "", none⟩

def endlessRedirectOracle : Nat → ChainResp := fun _ => endlessRedirectResp

/-- C5 counterexample: the claim says every response sequence terminates the
loop within a fixed bound of 20 hops, exceeding it raising `RedirectLoopError`.
After 21 hops on the ever-redirecting sequence the loop is still running (and
the code has no `RedirectLoopError` at all). -/
theorem redirect_loop_bound_cex :
    follow_redirect_chain endlessRedirectOracle 21 0
      "https://identity.vwgroup.io/next" [] 0 = .outOfFuel [] := by decide

/-- C5 amended: the redirect loop of `login` is NOT bounded by any hop count:
on a response sequence that always supplies a fresh `Location` lacking a code
and not reaching the app scheme, the loop is still running after `fuel` hops,
for every `fuel`; termination happens only via the loop guard or an empty
`Location`, never via a hop bound or a `RedirectLoopError`. -/
theorem redirect_loop_unbounded (fuel : Nat) : ∀ i posts gets,
    follow_redirect_chain endlessRedirectOracle fuel i
      "https://identity.vwgroup.io/next" posts gets = .outOfFuel posts := by
  induction fuel with
  | zero =>
    intro i posts gets
    have hg : chainGuard "https://identity.vwgroup.io/next" = true := by decide
    simp [follow_redirect_chain, hg]
  | succ n ih =>
    intro i posts gets
    have hg : chainGuard "https://identity.vwgroup.io/next" = true := by decide
    have habs : absolutize "https://identity.vwgroup.io/next" =
        "https://identity.vwgroup.io/next" := by decide
    have hcons : strContains "https://identity.vwgroup.io/next" "consent/marketing" = false := by
      decide
    rw [follow_redirect_chain]
    simp only [hg, if_true, endlessRedirectOracle, endlessRedirectResp, habs, hcons]
    norm_num
    exact ih (i + 1) posts (gets + 1)

/-! ## Claim C8: extraction failures -/

/-- The consent POSTs recorded by a chain run. -/
def ChainResult.posts : ChainResult → List ConsentPost
  | .finalLoc _ p _ => p
  | .outOfFuel p => p

/-- The redirect loop only ever appends to the list of recorded consent
POSTs. -/
theorem follow_redirect_chain_posts_mono (o : Nat → ChainResp) (fuel : Nat) :
    ∀ i location posts gets, ∃ extra,
      (follow_redirect_chain o fuel i location posts gets).posts = posts ++ extra := by
  induction fuel with
  | zero =>
    intro i location posts gets
    unfold follow_redirect_chain
    by_cases hg : chainGuard location = true
    · exact ⟨[], by simp [hg, ChainResult.posts]⟩
    · refine ⟨[], ?_⟩
      simp only [Bool.not_eq_true] at hg
      simp [hg, ChainResult.posts]
  | succ n ih =>
    intro i location posts gets
    unfold follow_redirect_chain
    by_cases hg : chainGuard location = true
    · simp only [hg, if_true]
      by_cases hc : ((o i).status == 200 && strContains (absolutize location) "consent/marketing") = true
      · simp only [hc, if_true]
        by_cases hn : strNonempty (if strNonempty (o i).consentLocation then (o i).consentLocation
            else if strNonempty (o i).consentCallback then (o i).consentCallback else "") = true
        · simp only [hn, if_true]
          obtain ⟨extra, he⟩ := ih (i + 1)
            (if strNonempty (o i).consentLocation then (o i).consentLocation
              else if strNonempty (o i).consentCallback then (o i).consentCallback else "")
            (posts ++ [⟨((o i).consentCsrf).getD "", (o i).consentRelay, (o i).consentHmac, "NO"⟩])
            (gets + 1)
          refine ⟨⟨((o i).consentCsrf).getD "", (o i).consentRelay, (o i).consentHmac, "NO"⟩ ::
            extra, ?_⟩
          rw [he]
          simp
        · simp only [Bool.not_eq_true] at hn
          simp only [hn, Bool.false_eq_true, if_false]
          exact ⟨[⟨((o i).consentCsrf).getD "", (o i).consentRelay, (o i).consentHmac, "NO"⟩],
            rfl⟩
      · simp only [Bool.not_eq_true] at hc
        simp only [hc, Bool.false_eq_true, if_false]
        by_cases hn : strNonempty (o i).location = true
        · simp only [hn, if_true]
          exact ih (i + 1) (o i).location posts (gets + 1)
        · simp only [Bool.not_eq_true] at hn
          simp only [hn, Bool.false_eq_true, if_false]
          exact ⟨[], by simp [ChainResult.posts]⟩
    · simp only [Bool.not_eq_true] at hg
      simp only [hg, Bool.false_eq_true, if_false]
      exact ⟨[], by simp [ChainResult.posts]⟩

/-- A consent/marketing page whose body has NO scrapable CSRF token; the
consent POST response redirects onward to the app-scheme URI with the code. -/
def consentNoCsrfResp : ChainResp :=
  ⟨200, "", none, "", "hmac-q", "relay-q", 302, "myaudi:///?code=abc", none⟩

def consentNoCsrfOracle : Nat → ChainResp := fun _ => consentNoCsrfResp

/-- C8 counterexample: the claim says every extraction whose target is absent
fails the login attempt with an error naming the missing element, including
the consent-page CSRF extraction. On a consent page with no CSRF token
(`consentCsrf = none`) the loop does not fail: it silently POSTs the consent
form with the empty-string default as `_csrf` and completes the chain. -/
theorem consent_csrf_silent_default_cex :
    follow_redirect_chain consentNoCsrfOracle 5 0
      "https://identity.vwgroup.io/consent/marketing?relayState=rs" [] 0 =
      .finalLoc "myaudi:///?code=abc" [⟨"", "relay-q", "hmac-q", "NO"⟩] 1 := by decide

/-- C8 amended: the main-flow extractions (login form action, relayState,
`window._IDK`, its CSRF token, the HMAC) each fail the attempt with an error
naming the missing element when their target is absent, but the consent-page
CSRF extraction inside the redirect loop is NOT one of them: when the consent
page carries no CSRF token the loop substitutes the empty string and
continues, recording a consent POST whose `_csrf` field is `""`. -/
theorem extraction_absent_behavior (o : FullLoginOracle) (now fuel : Nat)
    (st : TokenState) (file : Option TokenState) (fa rs ct : String)
    (c : Nat → ChainResp) (loc : String) :
    (o.openidStatus = 200 → o.formAction = none →
      (full_login_flow o now fuel st file).result = .error .noLoginForm)
    ∧ (o.openidStatus = 200 → o.formAction = some fa → o.emailStatus = 302 →
        o.relayState = none →
      (full_login_flow o now fuel st file).result = .error .noRelayState)
    ∧ (o.openidStatus = 200 → o.formAction = some fa → o.emailStatus = 302 →
        o.relayState = some rs → o.idkFound = false →
      (full_login_flow o now fuel st file).result = .error .noIdk)
    ∧ (o.openidStatus = 200 → o.formAction = some fa → o.emailStatus = 302 →
        o.relayState = some rs → o.idkFound = true → o.csrfToken = none →
      (full_login_flow o now fuel st file).result = .error .noCsrfToken)
    ∧ (o.openidStatus = 200 → o.formAction = some fa → o.emailStatus = 302 →
        o.relayState = some rs → o.idkFound = true → o.csrfToken = some ct →
        o.hmacVal = none →
      (full_login_flow o now fuel st file).result = .error .noHmac)
    ∧ (chainGuard loc = true → (c 0).status = 200 →
        strContains (absolutize loc) "consent/marketing" = true →
        (c 0).consentCsrf = none →
      (follow_redirect_chain c (fuel + 1) 0 loc [] 0).posts.head? =
        some ⟨"", (c 0).consentRelay, (c 0).consentHmac, "NO"⟩) := by
  refine ⟨?_, ?_, ?_, ?_, ?_, ?_⟩
  · intro h1 h2; simp [full_login_flow, h1, h2]
  · intro h1 h2 h3 h4; simp [full_login_flow, h1, h2, h3, h4]
  · intro h1 h2 h3 h4 h5; simp [full_login_flow, h1, h2, h3, h4, h5]
  · intro h1 h2 h3 h4 h5 h6; simp [full_login_flow, h1, h2, h3, h4, h5, h6]
  · intro h1 h2 h3 h4 h5 h6 h7; simp [full_login_flow, h1, h2, h3, h4, h5, h6, h7]
  · intro hg hs hc hcsrf
    unfold follow_redirect_chain
    simp only [hg, if_true, hs, hc, hcsrf]
    norm_num
    by_cases hn : strNonempty (if strNonempty (c 0).consentLocation then (c 0).consentLocation
        else if strNonempty (c 0).consentCallback then (c 0).consentCallback else "") = true
    · simp only [hn, if_true]
      obtain ⟨extra, he⟩ := follow_redirect_chain_posts_mono c fuel 1
        (if strNonempty (c 0).consentLocation then (c 0).consentLocation
          else if strNonempty (c 0).consentCallback then (c 0).consentCallback else "")
        [⟨"", (c 0).consentRelay, (c 0).consentHmac, "NO"⟩] 1
      rw [he]
      simp
    · simp only [Bool.not_eq_true] at hn
      simp only [hn, Bool.false_eq_true, if_false]
      simp [ChainResult.posts]


/-! ## Claims C1, C10: refresh and login -/

/-- Decidable equality of `Except` results (componentwise). -/
instance exceptDecEq {ε α : Type} [DecidableEq ε] [DecidableEq α] :
    DecidableEq (Except ε α) := fun a b =>
  match a, b with
  | .ok x, .ok y => if h : x = y then .isTrue (by rw [h]) else .isFalse (by simp [h])
  | .error x, .error y => if h : x = y then .isTrue (by rw [h]) else .isFalse (by simp [h])
  | .ok _, .error _ => .isFalse (by simp)
  | .error _, .ok _ => .isFalse (by simp)

/-- A `_refresh_tokens` call that returns normally made exactly one refresh
POST and saved the final in-memory state to the file. -/
theorem refresh_tokens_ok_shape (o : RefreshOracle) (now : Nat) (olb : Bool)
    (st : TokenState) (file : Option TokenState)
    (h : (refresh_tokens o now olb st file).result = .ok ()) :
    (refresh_tokens o now olb st file).refreshPosts = 1 ∧
    (refresh_tokens o now olb st file).file =
      some (refresh_tokens o now olb st file).state := by
  unfold refresh_tokens get_mbb_token at h ⊢
  cases olb <;>
    by_cases h1 : o.openidStatus = 200 <;>
      by_cases h2 : o.status = 200 <;>
        by_cases h3 : o.mbbStatus = 200 <;>
          simp_all

theorem refresh_tokens_ok_shape_witness :
    (refresh_tokens ⟨200, 200, ⟨some "a", some "r", some "i", some 3600⟩, 200,
        ⟨some "m", some 3600⟩⟩ 0 true initialTokenState none).result = .ok () ∧
    (refresh_tokens ⟨200, 200, ⟨some "a", some "r", some "i", some 3600⟩, 200,
        ⟨some "m", some 3600⟩⟩ 0 true initialTokenState none).refreshPosts = 1 := by
  refine ⟨by decide, ?_⟩
  exact (refresh_tokens_ok_shape _ 0 true initialTokenState none (by decide)).1

/-- C1: `login` decides among cache, refresh and full login in order. With a
loaded record `d`: a present, unexpired MBB token returns success at once
with zero network calls and the file untouched; otherwise a present refresh
token triggers a refresh, which on success persists (one refresh POST) and
succeeds without entering the full flow, and on failure falls through to the
full flow; without a usable refresh token, or with no loadable record at
all, the full flow runs directly with no refresh attempted. -/
theorem login_decision_order (o : LoginOracle) (now fuel : Nat) (d : TokenState) :
    (o.file = some d → cacheHit d now = true →
      login o now fuel = ⟨.ok true, d, o.file, 0, 0, 0, .cached⟩)
    ∧ (o.file = some d → cacheHit d now = false → truthy d.refresh_token = true →
        (refresh_tokens o.refresh now false d o.file).result = .ok () →
        (login o now fuel).mode = .refreshed ∧
        (login o now fuel).result = .ok true ∧
        (login o now fuel).refreshPosts = 1 ∧
        (login o now fuel).fullFlowRuns = 0 ∧
        (login o now fuel).file = some (login o now fuel).state)
    ∧ (o.file = some d → cacheHit d now = false → truthy d.refresh_token = true →
        (∀ e, (refresh_tokens o.refresh now false d o.file).result = .error e →
          (login o now fuel).mode = .fullFlow ∧
          (login o now fuel).fullFlowRuns = 1 ∧
          (login o now fuel).refreshPosts =
            (refresh_tokens o.refresh now false d o.file).refreshPosts))
    ∧ (o.file = some d → cacheHit d now = false → truthy d.refresh_token = false →
        (login o now fuel).mode = .fullFlow ∧
        (login o now fuel).fullFlowRuns = 1 ∧
        (login o now fuel).refreshPosts = 0)
    ∧ (o.file = none →
        (login o now fuel).mode = .fullFlow ∧
        (login o now fuel).fullFlowRuns = 1 ∧
        (login o now fuel).refreshPosts = 0 ∧
        (login o now fuel).netCalls = (full_login_flow o.full now fuel
          initialTokenState none).netCalls) := by
  refine ⟨?_, ?_, ?_, ?_, ?_⟩
  · intro hf hc
    simp [login, load_tokens, hf, hc]
  · intro hf hc hr hok
    obtain ⟨hp, hfl⟩ := refresh_tokens_ok_shape o.refresh now false d o.file hok
    rw [hf] at hok hp hfl
    simp [login, load_tokens, hf, hc, hr, hok, hp, hfl]
  · intro hf hc hr e herr
    rw [hf] at herr
    simp [login, load_tokens, hf, hc, hr, herr]
  · intro hf hc hr
    simp [login, load_tokens, hf, hc, hr]
  · intro hf
    simp [login, load_tokens, hf]

/-- A loaded record whose MBB token is present and unexpired at time 5. -/
def cachedRecord : TokenState := ⟨none, none, none, none, some "m", some 10⟩

def trivialRefreshOracle : RefreshOracle :=
  ⟨200, 200, ⟨none, none, none, none⟩, 200, ⟨none, none⟩⟩

def trivialFullOracle : FullLoginOracle :=
  ⟨200, 302, some "fa", 302, some "rs", true, some "c", some "h", 302, "", false,
    fun _ => ⟨302, "", none, "", "", "", 302, "", none⟩, some "code", none, 200,
    ⟨none, none, none, none⟩, 200, ⟨none, none⟩⟩

def cachedLoginOracle : LoginOracle := ⟨some cachedRecord, trivialRefreshOracle, trivialFullOracle⟩

theorem login_decision_order_witness :
    cachedLoginOracle.file = some cachedRecord ∧ cacheHit cachedRecord 5 = true ∧
    login cachedLoginOracle 5 3 =
      ⟨.ok true, cachedRecord, some cachedRecord, 0, 0, 0, .cached⟩ := by
  refine ⟨rfl, by decide, ?_⟩
  exact (login_decision_order cachedLoginOracle 5 3 cachedRecord).1 rfl (by decide)

/-- C10: a successful read of the refresh response never discards a
previously held refresh token. If the token endpoint's JSON omits
`refresh_token`, the session's stored refresh token after `_refresh_tokens`
equals its value before the call (on every path, including failing ones); if
the JSON carries one and the refresh response was read (HTTP 200, OpenID
config available), the stored refresh token is replaced by the new value. -/
theorem refresh_token_not_discarded (o : RefreshOracle) (now : Nat) (olb : Bool)
    (st : TokenState) (file : Option TokenState) (v : String) :
    (o.json.refresh_token = none →
      (refresh_tokens o now olb st file).state.refresh_token = st.refresh_token)
    ∧ (o.json.refresh_token = some v → o.status = 200 →
        (olb = false → o.openidStatus = 200) →
      (refresh_tokens o now olb st file).state.refresh_token = some v) := by
  constructor
  · intro hn
    unfold refresh_tokens get_mbb_token
    cases olb <;>
      by_cases h1 : o.openidStatus = 200 <;>
        by_cases h2 : o.status = 200 <;>
          by_cases h3 : o.mbbStatus = 200 <;>
            simp_all
  · intro hv hs hcfg
    unfold refresh_tokens get_mbb_token
    cases olb <;>
      by_cases h1 : o.openidStatus = 200 <;>
        by_cases h3 : o.mbbStatus = 200 <;>
          simp_all

/-! ## Claims C2, C3: `authenticated_get` -/

/-- C2 amended: on a first-response 401, `authenticated_get` invokes
`_refresh_tokens` once; if the refresh succeeds, exactly one retried request
follows and the retried response — whatever its status, including another
401 — is returned with no further refresh (one refresh POST in total); if
the refresh raises, its error propagates to the caller and NO retried
request is issued. If the first response is not a 401, no refresh occurs and
the first response is returned from a single request. -/
theorem authenticated_get_single_retry (o : AuthGetOracle) (url : String)
    (now : Nat) (olb : Bool) (st : TokenState) (file : Option TokenState) :
    ((o.resp 0).1 = 401 →
        (refresh_tokens o.refresh now olb st file).result = .ok () →
      (authenticated_get o url now olb st file).result = .ok (o.resp 1) ∧
      (authenticated_get o url now olb st file).requests.length = 2 ∧
      (authenticated_get o url now olb st file).refreshPosts = 1)
    ∧ ((o.resp 0).1 = 401 →
        (∀ e, (refresh_tokens o.refresh now olb st file).result = .error e →
          (authenticated_get o url now olb st file).result = .error e ∧
          (authenticated_get o url now olb st file).requests.length = 1 ∧
          (authenticated_get o url now olb st file).refreshPosts ≤ 1))
    ∧ ((o.resp 0).1 ≠ 401 →
      (authenticated_get o url now olb st file) =
        ⟨.ok (o.resp 0), st, file, [⟨url, st.access_token⟩], 0⟩) := by
  refine ⟨?_, ?_, ?_⟩
  · intro h401 hok
    obtain ⟨hp, _⟩ := refresh_tokens_ok_shape o.refresh now olb st file hok
    simp [authenticated_get, h401, hok, hp]
  · intro h401 e herr
    have hle : (refresh_tokens o.refresh now olb st file).refreshPosts ≤ 1 := by
      unfold refresh_tokens get_mbb_token
      cases olb <;>
        by_cases h1 : o.refresh.openidStatus = 200 <;>
          by_cases h2 : o.refresh.status = 200 <;>
            by_cases h3 : o.refresh.mbbStatus = 200 <;>
              simp_all
    simp [authenticated_get, h401, herr, hle]
  · intro h401
    simp [authenticated_get, h401]

/-- The refresh oracle of the C2 counterexample: the token endpoint rejects
the refresh grant with a 500. -/
def failingRefreshOracle : RefreshOracle :=
  ⟨200, 500, ⟨none, none, none, none⟩, 200, ⟨none, none⟩⟩

/-- The C2 counterexample oracle: the first GET returns 401, a second GET
would return 200, but the refresh between them fails. -/
def cexAuthOracle : AuthGetOracle :=
  ⟨fun i => if i = 0 then (401, "unauthorized") else (200, "ok"), failingRefreshOracle⟩

/-- C2 counterexample: the claim says a first-response 401 is followed by
exactly one refresh and exactly one retried request whose result is
returned. When the refresh itself fails (here: token endpoint answers 500),
no retried request is issued — only one request total — and the caller gets
the refresh error instead of a retried response. -/
theorem authenticated_get_retry_cex :
    (cexAuthOracle.resp 0).1 = 401 ∧
    (authenticated_get cexAuthOracle "https://emea.bff.cariad.digital/vehicle/v1/vehicles"
      0 true initialTokenState none).requests.length ≠ 2 ∧
    (authenticated_get cexAuthOracle "https://emea.bff.cariad.digital/vehicle/v1/vehicles"
      0 true initialTokenState none).result = .error (.refreshFailed 500) := by decide

/-- C3 amended: every request issued by `authenticated_get` carries the
session's OAuth `access_token` as the bearer credential — the first request
the pre-call value, the retried request the value `_refresh_tokens`
installed. The MBB capability token is never the bearer. -/
theorem authenticated_get_bearer (o : AuthGetOracle) (url : String) (now : Nat)
    (olb : Bool) (st : TokenState) (file : Option TokenState) :
    ((authenticated_get o url now olb st file).requests.head? =
      some ⟨url, st.access_token⟩)
    ∧ ((o.resp 0).1 = 401 →
        (refresh_tokens o.refresh now olb st file).result = .ok () →
      (authenticated_get o url now olb st file).requests =
        [⟨url, st.access_token⟩,
         ⟨url, (refresh_tokens o.refresh now olb st file).state.access_token⟩]) := by
  constructor
  · by_cases h : (o.resp 0).1 = 401
    · cases hres : (refresh_tokens o.refresh now olb st file).result with
      | ok u => simp [authenticated_get, h, hres]
      | error e => simp [authenticated_get, h, hres]
    · simp [authenticated_get, h]
  · intro h401 hok
    simp [authenticated_get, h401, hok]

/-- The session state of the C3 counterexample: distinct OAuth access and
MBB capability tokens are both in memory. -/
def cexBearerState : TokenState :=
  ⟨some "oauth-access", none, none, none, some "mbb-capability", some 9999⟩

def okRespAuthOracle : AuthGetOracle := ⟨fun _ => (200, "ok"), trivialRefreshOracle⟩

/-- C3 counterexample: the claim says the request carries the MBB capability
token as bearer. With `access_token = "oauth-access"` and
`mbb_token = "mbb-capability"` in memory, the issued request bears
`"oauth-access"`, which is not the MBB token. -/
theorem authenticated_get_bearer_cex :
    (authenticated_get okRespAuthOracle
        "https://emea.bff.cariad.digital/vehicle/v1/vehicles" 0 true
        cexBearerState none).requests.map Request.bearer = [some "oauth-access"]
    ∧ cexBearerState.mbb_token = some "mbb-capability"
    ∧ (authenticated_get okRespAuthOracle
        "https://emea.bff.cariad.digital/vehicle/v1/vehicles" 0 true
        cexBearerState none).requests.map Request.bearer ≠
          [cexBearerState.mbb_token] := by decide

/-! ## Claim C6: no partial persistence -/

/-- C6: `_save_tokens` runs only after a whole login or refresh attempt has
succeeded. For every oracle, the file after `full_login_flow` (resp.
`_refresh_tokens`) is the freshly saved final state when the attempt
returned normally, and is exactly the previous file contents when the
attempt raised at any step. -/
theorem no_partial_persist (o : FullLoginOracle) (ro : RefreshOracle)
    (now fuel : Nat) (olb : Bool) (st : TokenState) (file : Option TokenState) :
    (∀ res stt fl nc, full_login_flow o now fuel st file = ⟨res, stt, fl, nc⟩ →
      fl = match res with
        | .ok _ => some stt
        | .error _ => file)
    ∧ (∀ res stt fl nc rp, refresh_tokens ro now olb st file = ⟨res, stt, fl, nc, rp⟩ →
      fl = match res with
        | .ok _ => some stt
        | .error _ => file) := by
  constructor
  · intro res stt fl nc h
    unfold full_login_flow get_mbb_token at h
    repeat' split at h
    all_goals (injection h with h1 h2 h3 h4; subst h1 h2 h3 h4; rfl)
  · intro res stt fl nc rp h
    unfold refresh_tokens get_mbb_token at h
    repeat' split at h
    all_goals (injection h with h1 h2 h3 h4 h5; subst h1 h2 h3 h4 h5; rfl)

/-! ## Claim C4: no single-flight refresh -/

/-- C4 amended: the session has no refresh mutex and no single-flight
primitive. Two concurrent `authenticated_get` calls that both observe a 401
before either refreshes each perform their own refresh: after the two
first GETs both tasks are headed into `_refresh_tokens` (no guard stops the
second), a task at that point always POSTs the refresh grant itself, and the
completed interleaving makes two refresh POSTs reach the token endpoint. -/
theorem no_single_flight_refresh :
    concRun [false, true] concInit = ⟨staleToken, .doRefresh, .doRefresh, 0⟩
    ∧ (∀ s : ConcState, s.pc0 = .doRefresh →
        concStep s false = ⟨freshTokenValue, .retry, s.pc1, s.refreshPosts + 1⟩)
    ∧ (∀ s : ConcState, s.pc1 = .doRefresh →
        concStep s true = ⟨freshTokenValue, s.pc0, .retry, s.refreshPosts + 1⟩)
    ∧ concRun [false, true, false, true, false, true] concInit =
        ⟨freshTokenValue, .done, .done, 2⟩ := by
  refine ⟨by decide, ?_, ?_, by decide⟩
  · intro s h; cases s; simp_all [concStep, stepTask]
  · intro s h; cases s; simp_all [concStep, stepTask]

/-- C4 counterexample: the claim says exactly one refresh call reaches the
token endpoint in total when two concurrent `authenticated_get` calls each
observe a 401. In the interleaving where both first GETs return 401 before
either task refreshes, both tasks complete and the refresh endpoint is hit
twice, not once. -/
theorem single_flight_refresh_cex :
    (concRun [false, true, false, true, false, true] concInit).pc0 = .done
    ∧ (concRun [false, true, false, true, false, true] concInit).pc1 = .done
    ∧ (concRun [false, true, false, true, false, true] concInit).refreshPosts ≠ 1 := by
  decide

/-! ## Claim C7: `_save_tokens` is not write-then-replace -/

/-- C7 amended: `_save_tokens` persists the record with a single in-place
truncating write of the serialized JSON to the token file; it uses no
temporary file and no rename, so it is not atomic with respect to a crash:
a crash mid-write leaves a proper prefix of the new content where the old
record used to be. -/
theorem save_tokens_in_place (st : TokenState) :
    save_tokens_ops st = [.write tokenFilePath (dumpRecord st)] ∧
    isWriteThenReplace (save_tokens_ops st) tokenFilePath = false := ⟨rfl, rfl⟩

/-- A fully populated record being saved over a previous one. -/
def cexSaveRecord : TokenState :=
  ⟨some "at2", some "rt2", some "it2", some 200, some "mt2", some 300⟩

/-- The file content a previous successful save left behind. -/
def previousSavedContent : String := dumpRecord initialTokenState

/-- C7 counterexample: the claim says `save` writes to a temporary location
and then replaces the old file, so no reader can observe a half-written
record. `_save_tokens` is a single in-place write, and a crash after 9 bytes
leaves on disk a content that is neither the previous record nor the new
one. -/
theorem save_atomicity_cex :
    isWriteThenReplace (save_tokens_ops cexSaveRecord) tokenFilePath = false
    ∧ crashMidWriteContent (FileOp.write tokenFilePath (dumpRecord cexSaveRecord))
        previousSavedContent 9 ≠ previousSavedContent
    ∧ crashMidWriteContent (FileOp.write tokenFilePath (dumpRecord cexSaveRecord))
        previousSavedContent 9 ≠ dumpRecord cexSaveRecord := by decide
